import Mathlib

/-!
# Verification of the coroutine splitting transform (CoroSplit.cpp)

A shallow embedding of the coroutine splitting pass in
`Transforms/Coroutines/CoroSplit.cpp`.  The pass turns a coroutine
(a function whose suspension points are marked with intrinsics) into a
state machine: it simplifies trivial suspension points, builds a resume
entry dispatch block, outlines resume/destroy/cleanup clones, and wires
the clone addresses into the coroutine frame.

Each Lean definition below is translated from the correspondingly named
C++ function of the source file.  Constructs of the repository that live
outside this file (the `coro::Shape` constructor, the field indices of
the frame in `CoroInternal.h`, the presplit attribute vocabulary) are
modelled from the specification and are marked as such in doc comments.
-/

namespace CoroSplit

/-- The (stripped) callee of a call site between a save marker and its
suspend.  `subfn frame rawIndex` is a `CoroSubFnInst` — a resume/destroy
address fetch from the frame produced by the begin marker identified by
`frame`, carrying the raw selector index operand; `notSubFn` is any other
callee. -/
inductive Callee
  | subfn (frame : Nat) (rawIndex : Nat)
  | notSubFn
deriving DecidableEq, Repr

/-- One instruction in the straight-line span between a `coro.save`
marker and its `coro.suspend`, at the granularity the simplifier
inspects: `coro.frame` markers and `coro.subfn.addr` markers are skipped,
any other call site is tracked with its stripped callee, and everything
else is a non-call instruction. -/
inductive Instr
  | coroFrame
  | coroSubFn
  | call (c : Callee)
  | nonCall
deriving DecidableEq, Repr

/-- A suspension point of the coroutine: the basic block of its
`coro.save` marker, the basic block of the `coro.suspend` itself, whether
the suspend is marked final, and the straight-line instructions strictly
between the save and the suspend (inspected by the code only when the
two blocks coincide, where the span is well defined). `id` identifies
the suspend instruction (and the resume block split out at it). -/
structure SuspendPoint where
  id : Nat
  isFinal : Bool
  saveBB : Nat
  suspendBB : Nat
  between : List Instr
deriving DecidableEq, Repr

/-- The call sites in a span, in order, skipping `coro.frame` and
`coro.subfn.addr` markers — the instructions `simplifySuspendPoint`
ignores. -/
def callList : List Instr → List Callee
  | [] => []
  | Instr.coroFrame :: rest => callList rest
  | Instr.coroSubFn :: rest => callList rest
  | Instr.call c :: rest => c :: callList rest
  | Instr.nonCall :: rest => callList rest

/-- The single-call scan of `simplifySuspendPoint` (CoroSplit.cpp lines
441-454): walk the span skipping frame/subfn markers; on a second call
site give up (`none`); otherwise return the at-most-one callee found.
`acc` is the call site seen so far. -/
def scanSingleCall : List Instr → Option Callee → Option (Option Callee)
  | [], acc => some acc
  | Instr.coroFrame :: rest, acc => scanSingleCall rest acc
  | Instr.coroSubFn :: rest, acc => scanSingleCall rest acc
  | Instr.call c :: rest, acc =>
    match acc with
    | some _ => none
    | none => scanSingleCall rest (some c)
  | Instr.nonCall :: rest, acc => scanSingleCall rest acc

/-- The effect of `simplifySuspendPoint` on the function: whether the
point simplified, the raw selector index the suspend's uses were
replaced with, and which instructions were erased.  All-false/none means
the function was left untouched. -/
structure SimplifyResult where
  simplified : Bool
  suspendReplacedWith : Option Nat
  saveErased : Bool
  suspendErased : Bool
  callErased : Bool
  subFnErasedIfUnused : Bool
deriving DecidableEq, Repr

/-- The untouched result: not simplifiable, nothing modified. -/
def noSimplify : SimplifyResult :=
  { simplified := false, suspendReplacedWith := none, saveErased := false,
    suspendErased := false, callErased := false, subFnErasedIfUnused := false }

/-- Translation of `simplifySuspendPoint` (CoroSplit.cpp lines 432-483):
bail out when save and suspend are in different blocks; scan the span for
a single call site; require its stripped callee to be a `CoroSubFnInst`
whose frame operand is the coroutine's own begin marker; on success
replace the suspend's uses with the subfn's raw index, erase the suspend,
the save and the call (and the subfn when it became unused). -/
def simplifySuspendPoint (sp : SuspendPoint) (coroBeginId : Nat) : SimplifyResult :=
  if sp.saveBB ≠ sp.suspendBB then noSimplify
  else
    match scanSingleCall sp.between none with
    | none => noSimplify
    | some none => noSimplify
    | some (some (Callee.subfn frame idx)) =>
      if frame = coroBeginId then
        { simplified := true, suspendReplacedWith := some idx, saveErased := true,
          suspendErased := true, callErased := true, subFnErasedIfUnused := true }
      else noSimplify
    | some (some Callee.notSubFn) => noSimplify

/-- Default element used for out-of-range list indexing; the loop below
never actually reads out of range when started on `I = 0`,
`N = S.length`. -/
def dfltSuspendPoint : SuspendPoint :=
  { id := 0, isFinal := false, saveBB := 0, suspendBB := 0, between := [] }

/-- `std::swap(S[I], S[N])` on the model list. -/
def swapAt (S : List SuspendPoint) (i j : Nat) : List SuspendPoint :=
  let a := S.getD i dfltSuspendPoint
  let b := S.getD j dfltSuspendPoint
  (S.set i b).set j a

/-- The removal loop of `simplifySuspendPoints` (CoroSplit.cpp lines
491-500), fuel-indexed: on each iteration either `N` decreases or `I`
increases, so `N - I` strictly decreases and an initial fuel of `N`
bounds the number of iterations; when fuel runs out `I ≥ N` already
holds and the returned pair matches the loop exit.  A simplified entry
is swapped with the last live entry (`std::swap(S[I], S[N])`) — removal
is swap-with-last, not order-preserving erasure. -/
def simplifyLoop (cb : Nat) : Nat → List SuspendPoint → Nat → Nat →
    List SuspendPoint × Nat
  | 0, S, _, N => (S, N)
  | fuel + 1, S, I, N =>
    if I < N then
      if (simplifySuspendPoint (S.getD I dfltSuspendPoint) cb).simplified then
        if N - 1 = I then (S, N - 1)
        else simplifyLoop cb fuel (swapAt S I (N - 1)) I (N - 1)
      else
        if I + 1 = N then (S, N)
        else simplifyLoop cb fuel S (I + 1) N
    else (S, N)

/-- Translation of `simplifySuspendPoints` (CoroSplit.cpp lines
486-502): run the removal loop over the suspend point sequence starting
at `I = 0`, `N = size`, then `resize(N)` — keep the first `N` entries. -/
def simplifySuspendPoints (cb : Nat) (S : List SuspendPoint) : List SuspendPoint :=
  if S.length = 0 then S
  else
    let p := simplifyLoop cb S.length S 0 S.length
    p.1.take p.2

/-- How `createResumeEntryBlock` lowers a `coro.save` marker: an ordinary
suspend stores its resume index into the frame's index field; a final
suspend instead stores null into the frame's resume-function-address
field. -/
inductive SaveLowering
  | storeIndex (i : Nat)
  | storeNullResumeFn
deriving DecidableEq, Repr

/-- The resume entry block built by `createResumeEntryBlock`
(CoroSplit.cpp lines 40-133): a switch on the loaded resume index whose
`i`-th case jumps to the resume block split out at the `i`-th suspend
point (`caseList` pairs the index value with the suspend's id), with an
unreachable default; and, per suspend point, the lowering of its save
marker. -/
structure EntryBlock where
  caseList : List (Nat × Nat)
  saveLowerings : List (Nat × SaveLowering)
deriving DecidableEq, Repr

/-- Translation of `createResumeEntryBlock` (CoroSplit.cpp lines
40-133): iterate the suspend points in sequence order with a running
`SuspendIndex`; every point — final or not — gets the switch case
`(SuspendIndex, its resume block)`, while its save marker is lowered to
a store of the index, or of null into the resume-address field when the
point is final. -/
def createResumeEntryBlock (S : List SuspendPoint) : EntryBlock :=
  { caseList := S.enum.map (fun p => (p.1, p.2.id)),
    saveLowerings := S.enum.map (fun p =>
      (p.2.id,
        if p.2.isFinal then SaveLowering.storeNullResumeFn
        else SaveLowering.storeIndex p.1)) }

/-- The dispatch structure at the entry of one outlined clone:
`caseList` is the resume-index switch after final-suspend handling;
`nullCheckFinalDest = some b` means the clone first loads the frame's
resume-function-address field, compares it with null, branches to block
`b` when null and falls through to the switch otherwise.  The switch
default is the unreachable block. -/
structure CloneDispatch where
  nullCheckFinalDest : Option Nat
  caseList : List (Nat × Nat)
deriving DecidableEq, Repr

/-- Translation of `handleFinalSuspend` (CoroSplit.cpp lines 184-204):
take the switch's last case (`std::prev(Switch->case_end())`), remember
its successor, remove it; in a destroy-path clone additionally split the
block and insert the load of the resume-address field, the null compare
and the conditional branch to the removed case's successor. -/
def handleFinalSuspend (sw : List (Nat × Nat)) (isDestroy : Bool) : CloneDispatch :=
  let finalDest := sw.getLast?.map Prod.snd
  { nullCheckFinalDest := if isDestroy then finalDest else none,
    caseList := sw.dropLast }

/-- How a `coro.suspend` is lowered inside a clone: replaced by an i8
literal and erased. -/
structure SuspendLowering where
  replacedWith : Nat
  erased : Bool
deriving DecidableEq, Repr

/-- An end marker (`coro.end`) of the coroutine, tagged with whether it
is the unwind variant. -/
structure CoroEnd where
  id : Nat
  isUnwind : Bool
deriving DecidableEq, Repr

/-- The parts of `coro::Shape` this transform reads.  Modelled from the
spec: the `coro::Shape` constructor itself lives in `CoroInternal.h` /
`Coroutines.cpp`, outside this file; per the spec the suspend points are
collected in CFG scan order with the final suspend point, when present,
as the last entry, and `hasFinalSuspend` records its presence.
`frameAllocSize` is the data-layout allocation size of the computed
frame type `frameTyId`; `hasCoroAlloc` is whether the begin marker's id
carries a `coro.alloc` allocation-elision marker, and `coroBeginMemArg`
is the begin marker's caller-supplied memory operand. -/
structure Shape where
  coroBeginId : Nat
  coroSuspends : List SuspendPoint
  hasFinalSuspend : Bool
  coroEnds : List CoroEnd
  coroSizes : List Nat
  frameAllocSize : Nat
  frameTyId : Nat
  hasCoroAlloc : Bool
  coroBeginMemArg : Nat
deriving DecidableEq, Repr

/-- One outlined clone (`createClone`, CoroSplit.cpp lines 209-300):
its function index (0 resume, 1 destroy, 2 cleanup), entry dispatch
after final-suspend handling, the lowering of every suspend point, the
id of the end marker before which `ret void` was inserted
(`replaceFallthroughCoroEnd` on `CoroEnds.front()`), the unwind end
markers replaced by `true` (`replaceUnwindCoroEnds`), whether
`coro.free` was elided (`replaceCoroFree` with `Elide = FnIndex == 2`),
and the fast calling convention. -/
structure CloneResult where
  fnIndex : Nat
  dispatch : CloneDispatch
  suspendLowerings : List (Nat × SuspendLowering)
  retVoidInsertedAt : Option Nat
  unwindEndsReplacedTrue : List Nat
  coroFreeElide : Bool
  fastCallingConv : Bool
deriving DecidableEq, Repr

/-- Translation of `createClone` (CoroSplit.cpp lines 209-300),
restricted to the lowering decisions: when the shape has a final
suspend, rewrite the cloned switch via `handleFinalSuspend` with
`IsDestroy = (FnIndex != 0)`; replace every suspend point with the
literal `FnIndex ? 1 : 0` and erase it; insert `ret void` at the
fall-through end marker; replace unwind end markers by `true`; elide
`coro.free` exactly in the cleanup clone; set the fast calling
convention. -/
def createClone (shape : Shape) (S : List SuspendPoint) (entry : EntryBlock)
    (fnIndex : Nat) : CloneResult :=
  { fnIndex := fnIndex,
    dispatch :=
      if shape.hasFinalSuspend then handleFinalSuspend entry.caseList (fnIndex ≠ 0)
      else { nullCheckFinalDest := none, caseList := entry.caseList },
    suspendLowerings :=
      S.map (fun sp => (sp.id, { replacedWith := if fnIndex ≠ 0 then 1 else 0,
                                 erased := true })),
    retVoidInsertedAt := shape.coroEnds.head?.map CoroEnd.id,
    unwindEndsReplacedTrue := (shape.coroEnds.filter (fun e => e.isUnwind)).map CoroEnd.id,
    coroFreeElide := fnIndex == 2,
    fastCallingConv := true }

/-- How an end marker is rewritten in the original coroutine: replaced
by the boolean constant `replacedWith` and erased. -/
structure EndReplacement where
  replacedWith : Bool
  erased : Bool
deriving DecidableEq, Repr

/-- Translation of `removeCoroEnds` (CoroSplit.cpp lines 302-313): in
the rewritten original function, replace every `coro.end` — normal and
unwind variant alike — by the constant `false` and erase it. -/
def removeCoroEnds (ends : List CoroEnd) : List (Nat × EndReplacement) :=
  ends.map (fun e => (e.id, { replacedWith := false, erased := true }))

/-- The rewrite of one `coro.size` query: replaced by the integer
literal `literal` and erased. -/
structure SizeReplacement where
  literal : Nat
  erased : Bool
deriving DecidableEq, Repr

/-- Translation of `replaceFrameSize` (CoroSplit.cpp lines 315-330):
every `coro.size` query is replaced by the constant
`DL.getTypeAllocSize(FrameTy)` — the allocation size of the computed
frame type — and erased (vacuously when there are none). -/
def replaceFrameSize (sizes : List Nat) (allocSize : Nat) : List (Nat × SizeReplacement) :=
  sizes.map (fun q => (q, { literal := allocSize, erased := true }))

/-- Modelled from the spec: the frame's fixed leading field indices,
`{ resumeFunctionAddress, destroyFunctionAddress, resumeIndex, ... }` at
positions 0, 1 and 2 — the `coro::Shape::ResumeField / DestroyField /
IndexField` constants of `CoroInternal.h`, which is not part of this
file. -/
def ResumeField : Nat := 0

/-- Modelled from the spec: frame field index 1, the destroy function
address. -/
def DestroyField : Nat := 1

/-- Modelled from the spec: frame field index 2, the resume index. -/
def IndexField : Nat := 2

/-- Reference to one of the three outlined clones. -/
inductive CloneRef
  | resume
  | destroy
  | cleanup
deriving DecidableEq, Repr

/-- The value stored into the frame's destroy-address field: either a
clone's address directly, or a select over the `coro.alloc` flag
yielding `whenAllocated` when the allocation happened at run time and
`whenElided` when it was elided. -/
inductive StoredDestroyValue
  | direct (f : CloneRef)
  | selectOnAlloc (whenAllocated : CloneRef) (whenElided : CloneRef)
deriving DecidableEq, Repr

/-- The stores issued into the coroutine frame by `updateCoroFrame`. -/
structure FrameStores where
  resumeFieldIndex : Nat
  resumeStored : CloneRef
  destroyFieldIndex : Nat
  destroyStored : StoredDestroyValue
deriving DecidableEq, Repr

/-- Translation of `updateCoroFrame` (CoroSplit.cpp lines 363-386):
store the resume clone's address unconditionally into the frame's
resume field; when the begin marker's id carries a `coro.alloc` marker,
store into the destroy field a select over that flag between the destroy
clone (allocation happened) and the cleanup clone (allocation elided),
otherwise store the destroy clone's address directly. -/
def updateCoroFrame (hasCoroAlloc : Bool) : FrameStores :=
  { resumeFieldIndex := ResumeField,
    resumeStored := CloneRef.resume,
    destroyFieldIndex := DestroyField,
    destroyStored :=
      if hasCoroAlloc then
        StoredDestroyValue.selectOnAlloc CloneRef.destroy CloneRef.cleanup
      else StoredDestroyValue.direct CloneRef.destroy }

/-- What the begin marker is replaced by in the no-suspend case: the
bitcast address of a fresh stack allocation of the frame type, or the
begin marker's own caller-supplied memory operand. -/
inductive BeginReplacement
  | freshStackAlloca (frameTy : Nat)
  | callerMem (mem : Nat)
deriving DecidableEq, Repr

/-- The effect of `handleNoSuspendCoroutine` on the function. -/
structure NoSuspendResult where
  beginReplacedWith : BeginReplacement
  allocReplacedWithFalse : Bool
  coroFreeElided : Bool
  beginErased : Bool
deriving DecidableEq, Repr

/-- Translation of `handleNoSuspendCoroutine` (CoroSplit.cpp lines
405-421): elide `coro.free` exactly when a `coro.alloc` marker is
present; with a marker, create a fresh `alloca` of the frame type,
replace the marker by `false` and the begin marker by the alloca's
bitcast address; without one, replace the begin marker by its memory
operand; in both cases erase the begin marker. -/
def handleNoSuspendCoroutine (shape : Shape) : NoSuspendResult :=
  if shape.hasCoroAlloc then
    { beginReplacedWith := BeginReplacement.freshStackAlloca shape.frameTyId,
      allocReplacedWithFalse := true, coroFreeElided := true, beginErased := true }
  else
    { beginReplacedWith := BeginReplacement.callerMem shape.coroBeginMemArg,
      allocReplacedWithFalse := false, coroFreeElided := false, beginErased := true }

/-- The observable output of `splitCoroutine` on one coroutine: the
suspend points surviving simplification, the size-query rewrites, the
outlined clones (empty in the no-suspend case), the end-marker rewrites
performed in the original function, the begin-marker replacement of the
no-suspend path, the frame stores of `updateCoroFrame`, and the
resumers triple recorded by `setCoroInfo`. -/
structure SplitOutput where
  suspendPointsAfterSimplify : List SuspendPoint
  sizeReplacements : List (Nat × SizeReplacement)
  clones : List CloneResult
  originalEndLowerings : List (Nat × EndReplacement)
  beginReplacement : Option NoSuspendResult
  frameStores : Option FrameStores
  coroInfoTriple : Option (List Nat)
deriving DecidableEq, Repr

/-- Translation of `splitCoroutine` (CoroSplit.cpp lines 578-621):
simplify the suspend points, resolve the frame-size queries, and then
either — when no suspend point survives — remove the frame allocation
via `handleNoSuspendCoroutine` and the end markers, outlining nothing;
or build the resume entry block, outline the resume/destroy/cleanup
clones with function indices 0, 1, 2, remove the original's end
markers, store the clone addresses into the frame and record the
resumers triple.  (`relocateInstructionBefore`, `buildCoroutineFrame`
and the `postSplitCleanup` optimization pipeline mutate state none of
the modelled observables depend on and are external to this file's
claims.) -/
def splitCoroutine (shape : Shape) : SplitOutput :=
  let S := simplifySuspendPoints shape.coroBeginId shape.coroSuspends
  let sizeReps := replaceFrameSize shape.coroSizes shape.frameAllocSize
  if S = [] then
    { suspendPointsAfterSimplify := S,
      sizeReplacements := sizeReps,
      clones := [],
      originalEndLowerings := removeCoroEnds shape.coroEnds,
      beginReplacement := some (handleNoSuspendCoroutine shape),
      frameStores := none,
      coroInfoTriple := none }
  else
    let entry := createResumeEntryBlock S
    { suspendPointsAfterSimplify := S,
      sizeReplacements := sizeReps,
      clones := [createClone shape S entry 0, createClone shape S entry 1,
                 createClone shape S entry 2],
      originalEndLowerings := removeCoroEnds shape.coroEnds,
      beginReplacement := none,
      frameStores := some (updateCoroFrame shape.hasCoroAlloc),
      coroInfoTriple := some [0, 1, 2] }

/-- Modelled from the spec: the tri-state presplit marker read and
written by the driver through the `CORO_PRESPLIT_ATTR` function
attribute (the attribute key and its value strings live in
`CoroInternal.h`, outside this file): not yet prepared
(`UNPREPARED_FOR_SPLIT`), prepared and awaiting the split
(`PREPARED_FOR_SPLIT`), or absent (attribute removed / never added). -/
inductive PresplitAttr
  | unprepared
  | prepared
  | absent
deriving DecidableEq, Repr

/-- The driver-visible state of one function: its presplit attribute,
whether the indirect devirtualization probe has been inserted, and how
many times `splitCoroutine` has been invoked on its body. -/
structure DriverFnState where
  attr : PresplitAttr
  probeInserted : Bool
  splitInvocations : Nat
deriving DecidableEq, Repr

/-- Translation of `prepareForSplit` (CoroSplit.cpp lines 626-649): set
the presplit attribute to prepared and insert the indirect-call probe
that the downstream devirtualization pass resolves; the body is not
split. -/
def prepareForSplit (s : DriverFnState) : DriverFnState :=
  { s with attr := PresplitAttr.prepared, probeInserted := true }

/-- `F->removeFnAttr(CORO_PRESPLIT_ATTR)` (CoroSplit.cpp line 723). -/
def removeFnAttr (s : DriverFnState) : DriverFnState :=
  { s with attr := PresplitAttr.absent }

/-- Invoking `splitCoroutine(*F, CG, SCC)` (CoroSplit.cpp line 724) on
the function body. -/
def splitCoroutineInvoke (s : DriverFnState) : DriverFnState :=
  { s with splitInvocations := s.splitInvocations + 1 }

/-- Translation of the per-function body of `CoroSplit::runOnSCC`
(CoroSplit.cpp lines 702-725): a function without the presplit
attribute is not collected into `Coroutines` and is untouched; one whose
attribute value is `UNPREPARED_FOR_SPLIT` is only prepared (probe
inserted, attribute set to prepared) and the driver defers; otherwise
the driver first removes the presplit attribute and then invokes the
split. -/
def processCoroutine (s : DriverFnState) : DriverFnState :=
  if s.attr = PresplitAttr.absent then s
  else if s.attr = PresplitAttr.unprepared then prepareForSplit s
  else splitCoroutineInvoke (removeFnAttr s)

/-- An upper bound on the splits a state can still perform plus those
already performed: the split counter, plus one while the presplit
attribute is still present. -/
def splitBudget (s : DriverFnState) : Nat :=
  s.splitInvocations + (if s.attr = PresplitAttr.absent then 0 else 1)

/-- An ordinary suspend point matching the simplifier's pattern for the
coroutine with begin marker 7: save and suspend share block 0 and the
span is a single call through a resume/destroy fetch from begin marker
7 with raw index 0. -/
def spA : SuspendPoint :=
  { id := 10, isFinal := false, saveBB := 0, suspendBB := 0,
    between := [Instr.call (Callee.subfn 7 0)] }

/-- An ordinary suspend point not matching the simplifier's pattern
(no call between save and suspend resumes the coroutine — the span has
no call at all). -/
def spB : SuspendPoint :=
  { id := 11, isFinal := false, saveBB := 1, suspendBB := 1, between := [] }

/-- A final suspend point, last in CFG scan order, not matching the
simplifier's pattern. -/
def spFin : SuspendPoint :=
  { id := 12, isFinal := true, saveBB := 2, suspendBB := 2, between := [] }

/-- A coroutine shape with suspend points `[spA, spB, spFin]` in CFG
scan order — the final suspend last, as the shape build guarantees —
where only `spA` is simplifiable. -/
def shapeBug : Shape :=
  { coroBeginId := 7, coroSuspends := [spA, spB, spFin], hasFinalSuspend := true,
    coroEnds := [{ id := 20, isUnwind := false }], coroSizes := [],
    frameAllocSize := 32, frameTyId := 3, hasCoroAlloc := false,
    coroBeginMemArg := 99 }

/-- A coroutine shape whose only suspend point is simplifiable, so that
no suspend point survives simplification; it carries a `coro.alloc`
marker. -/
def shapeZero : Shape :=
  { coroBeginId := 7, coroSuspends := [spA], hasFinalSuspend := false,
    coroEnds := [{ id := 20, isUnwind := false }], coroSizes := [30],
    frameAllocSize := 40, frameTyId := 3, hasCoroAlloc := true,
    coroBeginMemArg := 99 }

/-- A coroutine shape with one surviving (non-simplifiable) suspend
point, a fall-through and an unwind end marker, one size query and a
`coro.alloc` marker. -/
def shapeOne : Shape :=
  { coroBeginId := 7, coroSuspends := [spB], hasFinalSuspend := false,
    coroEnds := [{ id := 20, isUnwind := false }, { id := 21, isUnwind := true }],
    coroSizes := [30], frameAllocSize := 24, frameTyId := 3,
    hasCoroAlloc := true, coroBeginMemArg := 99 }

/-- A suspension point whose save sits in block 0 but whose suspend sits
in block 1, while the span would match the single self-resume call
pattern for the coroutine with begin marker 5. -/
def spCrossBlock : SuspendPoint :=
  { id := 42, isFinal := false, saveBB := 0, suspendBB := 1,
    between := [Instr.call (Callee.subfn 5 1)] }

theorem callList_nil : callList [] = [] := rfl

theorem callList_cons_frame (rest : List Instr) :
    callList (Instr.coroFrame :: rest) = callList rest := rfl

theorem callList_cons_subfn (rest : List Instr) :
    callList (Instr.coroSubFn :: rest) = callList rest := rfl

theorem callList_cons_call (c : Callee) (rest : List Instr) :
    callList (Instr.call c :: rest) = c :: callList rest := rfl

theorem callList_cons_noncall (rest : List Instr) :
    callList (Instr.nonCall :: rest) = callList rest := rfl

theorem scanSingleCall_some (l : List Instr) (c : Callee) :
    scanSingleCall l (some c) = if callList l = [] then some (some c) else none := by
  induction l with
  | nil => simp [scanSingleCall, callList]
  | cons i rest ih =>
    cases i <;>
      simp [scanSingleCall, callList_cons_frame, callList_cons_subfn,
        callList_cons_call, callList_cons_noncall, ih]

theorem scanSingleCall_none (l : List Instr) :
    scanSingleCall l none =
      match callList l with
      | [] => some none
      | [c] => some (some c)
      | _ :: _ :: _ => none := by
  induction l with
  | nil => rfl
  | cons i rest ih =>
    cases i with
    | call c =>
      rw [callList_cons_call]
      show scanSingleCall rest (some c) = _
      rw [scanSingleCall_some]
      cases h : callList rest with
      | nil => simp
      | cons c2 tl => simp
    | coroFrame => rw [callList_cons_frame]; exact ih
    | coroSubFn => rw [callList_cons_subfn]; exact ih
    | nonCall => rw [callList_cons_noncall]; exact ih

/-- Claim C5: a suspension point is removed by the simplifier if and only
if the straight-line span between its save marker and the suspend (which
exists when the two share a basic block) contains exactly one call site —
ignoring frame and subfn-addr markers — and that call's stripped callee
is a resume/destroy fetch (`CoroSubFnInst`) referring to the coroutine's
own begin marker; on success the suspend's uses are replaced with the
fetched raw selector index and the suspend, the save and the call are
erased; any point not matching the pattern is left untouched. -/
theorem simplifySuspendPoint_pattern_characterization (sp : SuspendPoint) (cb : Nat) :
    ((simplifySuspendPoint sp cb).simplified = true ↔
      sp.saveBB = sp.suspendBB ∧ ∃ i, callList sp.between = [Callee.subfn cb i])
    ∧ (∀ i, sp.saveBB = sp.suspendBB → callList sp.between = [Callee.subfn cb i] →
        simplifySuspendPoint sp cb =
          { simplified := true, suspendReplacedWith := some i, saveErased := true,
            suspendErased := true, callErased := true, subFnErasedIfUnused := true })
    ∧ ((simplifySuspendPoint sp cb).simplified = false →
        simplifySuspendPoint sp cb = noSimplify) := by
  have hscan := scanSingleCall_none sp.between
  by_cases hbb : sp.saveBB = sp.suspendBB
  · cases hcl : callList sp.between with
    | nil =>
      rw [hcl] at hscan
      simp [simplifySuspendPoint, hbb, hscan, hcl, noSimplify]
    | cons c tl =>
      cases tl with
      | nil =>
        rw [hcl] at hscan
        cases c with
        | subfn f i =>
          by_cases hf : f = cb
          · subst hf
            simp [simplifySuspendPoint, hbb, hscan, hcl]
          · simp [simplifySuspendPoint, hbb, hscan, hcl, hf, noSimplify]
        | notSubFn =>
          simp [simplifySuspendPoint, hbb, hscan, hcl, noSimplify]
      | cons c2 tl2 =>
        rw [hcl] at hscan
        simp [simplifySuspendPoint, hbb, hscan, hcl, noSimplify]
  · simp [simplifySuspendPoint, hbb, noSimplify]

/-- Claim C10: when the save marker and the suspend live in different
basic blocks, the simplifier reports not-simplifiable and performs no
modification at all, regardless of the span's contents. -/
theorem simplifySuspendPoint_pattern_characterization_witness :
    (simplifySuspendPoint spA 7).simplified = true :=
  (simplifySuspendPoint_pattern_characterization spA 7).1.mpr ⟨rfl, 0, rfl⟩

theorem simplifySuspendPoint_cross_block (sp : SuspendPoint) (cb : Nat)
    (h : sp.saveBB ≠ sp.suspendBB) :
    simplifySuspendPoint sp cb = noSimplify := by
  simp [simplifySuspendPoint, h]

theorem simplifySuspendPoint_cross_block_witness :
    spCrossBlock.saveBB ≠ spCrossBlock.suspendBB
    ∧ callList spCrossBlock.between = [Callee.subfn 5 1]
    ∧ simplifySuspendPoint spCrossBlock 5 = noSimplify :=
  ⟨by decide, by decide, simplifySuspendPoint_cross_block spCrossBlock 5 (by decide)⟩

theorem splitBudget_step (s : DriverFnState) :
    splitBudget (processCoroutine s) ≤ splitBudget s := by
  by_cases h1 : s.attr = PresplitAttr.absent
  · simp [processCoroutine, h1]
  · by_cases h2 : s.attr = PresplitAttr.unprepared
    · simp [processCoroutine, splitBudget, prepareForSplit, h1, h2]
    · simp [processCoroutine, splitBudget, prepareForSplit, removeFnAttr,
        splitCoroutineInvoke, h1, h2]

theorem splitBudget_iterate (n : Nat) (s : DriverFnState) :
    splitBudget (processCoroutine^[n] s) ≤ splitBudget s := by
  induction n with
  | zero => simp
  | succ n ih =>
    rw [Function.iterate_succ_apply']
    exact le_trans (splitBudget_step _) ih

/-- Claim C8: on a first encounter (attribute `unprepared`) the driver
only inserts the indirect-call probe and marks the function prepared,
without splitting; on a later encounter it removes the presplit
attribute and then invokes the split; consequently, along any sequence
of driver invocations a function starting with zero splits is split at
most once. -/
theorem runOnSCC_at_most_one_split (p : Bool) (k n : Nat) (a : PresplitAttr) :
    processCoroutine ⟨PresplitAttr.unprepared, p, k⟩ = ⟨PresplitAttr.prepared, true, k⟩
    ∧ processCoroutine ⟨PresplitAttr.prepared, p, k⟩ =
        splitCoroutineInvoke (removeFnAttr ⟨PresplitAttr.prepared, p, k⟩)
    ∧ (removeFnAttr ⟨PresplitAttr.prepared, p, k⟩).attr = PresplitAttr.absent
    ∧ (processCoroutine^[n] ⟨a, p, 0⟩).splitInvocations ≤ 1 := by
  refine ⟨by simp [processCoroutine, prepareForSplit], by simp [processCoroutine], rfl, ?_⟩
  have h := splitBudget_iterate n ⟨a, p, 0⟩
  have hle : (processCoroutine^[n] (⟨a, p, 0⟩ : DriverFnState)).splitInvocations ≤
      splitBudget (processCoroutine^[n] ⟨a, p, 0⟩) := by
    simp [splitBudget]
  refine le_trans hle (le_trans h ?_)
  by_cases ha : a = PresplitAttr.absent <;> simp [splitBudget, ha]

theorem splitCoroutine_sizeReplacements (shape : Shape) :
    (splitCoroutine shape).sizeReplacements =
      replaceFrameSize shape.coroSizes shape.frameAllocSize := by
  simp only [splitCoroutine]
  split <;> rfl

theorem splitCoroutine_originalEndLowerings (shape : Shape) :
    (splitCoroutine shape).originalEndLowerings = removeCoroEnds shape.coroEnds := by
  simp only [splitCoroutine]
  split <;> rfl

theorem splitCoroutine_clone_ends (shape : Shape) (c : CloneResult)
    (hc : c ∈ (splitCoroutine shape).clones) :
    c.retVoidInsertedAt = shape.coroEnds.head?.map CoroEnd.id
    ∧ c.unwindEndsReplacedTrue =
        (shape.coroEnds.filter (fun x => x.isUnwind)).map CoroEnd.id := by
  by_cases hS : simplifySuspendPoints shape.coroBeginId shape.coroSuspends = []
  · simp [splitCoroutine, hS] at hc
  · simp [splitCoroutine, hS] at hc
    rcases hc with rfl | rfl | rfl <;> exact ⟨rfl, rfl⟩

/-- Claim C7: every frame-size query is replaced by the integer literal
equal to the allocation size of the computed frame type and erased, in
both the split and the no-suspend paths, and no query escapes: the
rewrite list covers exactly the queries. -/
theorem replaceFrameSize_resolves_all (shape : Shape) (q : Nat)
    (h : q ∈ shape.coroSizes) :
    ((q, SizeReplacement.mk shape.frameAllocSize true) ∈
      (splitCoroutine shape).sizeReplacements)
    ∧ (∀ r ∈ (splitCoroutine shape).sizeReplacements,
        r.2 = SizeReplacement.mk shape.frameAllocSize true)
    ∧ (splitCoroutine shape).sizeReplacements.length = shape.coroSizes.length := by
  rw [splitCoroutine_sizeReplacements]
  refine ⟨List.mem_map.mpr ⟨q, h, rfl⟩, ?_, by simp [replaceFrameSize]⟩
  intro r hr
  rcases List.mem_map.mp hr with ⟨x, _, rfl⟩
  rfl

theorem replaceFrameSize_resolves_all_witness :
    ((30 : Nat) ∈ shapeOne.coroSizes)
    ∧ (((30 : Nat), SizeReplacement.mk shapeOne.frameAllocSize true) ∈
        (splitCoroutine shapeOne).sizeReplacements
      ∧ (∀ r ∈ (splitCoroutine shapeOne).sizeReplacements,
          r.2 = SizeReplacement.mk shapeOne.frameAllocSize true)
      ∧ (splitCoroutine shapeOne).sizeReplacements.length =
          shapeOne.coroSizes.length) :=
  ⟨by decide, replaceFrameSize_resolves_all shapeOne 30 (by decide)⟩

/-- Claim C9: in the rewritten original coroutine — split path and
zero-suspend path alike — every end marker, normal or unwind variant,
is replaced by the boolean constant `false` and erased, while the
`ret void` insertion and boolean-`true` replacement happen only inside
the outlined clones. -/
theorem removeCoroEnds_in_original (shape : Shape) (e : CoroEnd)
    (h : e ∈ shape.coroEnds) :
    ((e.id, EndReplacement.mk false true) ∈ (splitCoroutine shape).originalEndLowerings)
    ∧ (∀ r ∈ (splitCoroutine shape).originalEndLowerings,
        r.2 = EndReplacement.mk false true)
    ∧ (∀ c ∈ (splitCoroutine shape).clones,
        c.retVoidInsertedAt = shape.coroEnds.head?.map CoroEnd.id
        ∧ c.unwindEndsReplacedTrue =
            (shape.coroEnds.filter (fun x => x.isUnwind)).map CoroEnd.id) := by
  refine ⟨?_, ?_, fun c hc => splitCoroutine_clone_ends shape c hc⟩
  · rw [splitCoroutine_originalEndLowerings]
    exact List.mem_map.mpr ⟨e, h, rfl⟩
  · rw [splitCoroutine_originalEndLowerings]
    intro r hr
    rcases List.mem_map.mp hr with ⟨x, _, rfl⟩
    rfl

theorem removeCoroEnds_in_original_witness :
    (CoroEnd.mk 21 true ∈ shapeOne.coroEnds)
    ∧ (((CoroEnd.mk 21 true).id, EndReplacement.mk false true) ∈
        (splitCoroutine shapeOne).originalEndLowerings
      ∧ (∀ r ∈ (splitCoroutine shapeOne).originalEndLowerings,
          r.2 = EndReplacement.mk false true)
      ∧ (∀ c ∈ (splitCoroutine shapeOne).clones,
          c.retVoidInsertedAt = shapeOne.coroEnds.head?.map CoroEnd.id
          ∧ c.unwindEndsReplacedTrue =
              (shapeOne.coroEnds.filter (fun x => x.isUnwind)).map CoroEnd.id)) :=
  ⟨by decide, removeCoroEnds_in_original shapeOne (CoroEnd.mk 21 true) (by decide)⟩

/-- Claim C3: when no suspend point survives simplification, the
transform outlines no resume/destroy/cleanup clones (and records no
frame stores or resumers triple); with a `coro.alloc` marker the begin
marker is replaced by the address of a fresh stack allocation of the
frame type and the marker by `false`, and without one the begin marker
is replaced by its caller-supplied memory operand. -/
theorem handleNoSuspend_no_outlining (shape : Shape)
    (h : simplifySuspendPoints shape.coroBeginId shape.coroSuspends = []) :
    (splitCoroutine shape).clones = []
    ∧ (splitCoroutine shape).frameStores = none
    ∧ (splitCoroutine shape).coroInfoTriple = none
    ∧ (splitCoroutine shape).beginReplacement = some (handleNoSuspendCoroutine shape)
    ∧ handleNoSuspendCoroutine shape =
        (if shape.hasCoroAlloc then
          { beginReplacedWith := BeginReplacement.freshStackAlloca shape.frameTyId,
            allocReplacedWithFalse := true, coroFreeElided := true, beginErased := true }
        else
          { beginReplacedWith := BeginReplacement.callerMem shape.coroBeginMemArg,
            allocReplacedWithFalse := false, coroFreeElided := false,
            beginErased := true }) := by
  refine ⟨?_, ?_, ?_, ?_, rfl⟩ <;> simp [splitCoroutine, h]

theorem handleNoSuspend_no_outlining_witness :
    (simplifySuspendPoints shapeZero.coroBeginId shapeZero.coroSuspends = [])
    ∧ ((splitCoroutine shapeZero).clones = []
      ∧ (splitCoroutine shapeZero).frameStores = none
      ∧ (splitCoroutine shapeZero).coroInfoTriple = none
      ∧ (splitCoroutine shapeZero).beginReplacement =
          some (handleNoSuspendCoroutine shapeZero)
      ∧ handleNoSuspendCoroutine shapeZero =
          (if shapeZero.hasCoroAlloc then
            { beginReplacedWith := BeginReplacement.freshStackAlloca shapeZero.frameTyId,
              allocReplacedWithFalse := true, coroFreeElided := true,
              beginErased := true }
          else
            { beginReplacedWith := BeginReplacement.callerMem shapeZero.coroBeginMemArg,
              allocReplacedWithFalse := false, coroFreeElided := false,
              beginErased := true })) :=
  ⟨by decide, handleNoSuspend_no_outlining shapeZero (by decide)⟩

/-- Claim C4: inside each outlined clone every suspension point is
replaced by a fixed literal depending only on which clone is built —
`0` in the resume clone (function index 0) and `1` in the destroy and
cleanup clones (function indices 1 and 2) — and then erased. -/
theorem createClone_suspend_literals (shape : Shape) (S : List SuspendPoint)
    (entry : EntryBlock) (sp : SuspendPoint) (h : sp ∈ S) :
    ((sp.id, SuspendLowering.mk 0 true) ∈ (createClone shape S entry 0).suspendLowerings)
    ∧ ((sp.id, SuspendLowering.mk 1 true) ∈ (createClone shape S entry 1).suspendLowerings)
    ∧ ((sp.id, SuspendLowering.mk 1 true) ∈ (createClone shape S entry 2).suspendLowerings) :=
  ⟨List.mem_map.mpr ⟨sp, h, rfl⟩, List.mem_map.mpr ⟨sp, h, rfl⟩,
    List.mem_map.mpr ⟨sp, h, rfl⟩⟩

theorem createClone_suspend_literals_witness :
    (spB ∈ [spB])
    ∧ (((spB.id, SuspendLowering.mk 0 true) ∈
        (createClone shapeOne [spB] (createResumeEntryBlock [spB]) 0).suspendLowerings)
      ∧ ((spB.id, SuspendLowering.mk 1 true) ∈
        (createClone shapeOne [spB] (createResumeEntryBlock [spB]) 1).suspendLowerings)
      ∧ ((spB.id, SuspendLowering.mk 1 true) ∈
        (createClone shapeOne [spB] (createResumeEntryBlock [spB]) 2).suspendLowerings)) :=
  ⟨by decide,
    createClone_suspend_literals shapeOne [spB] (createResumeEntryBlock [spB]) spB
      (by decide)⟩

/-- Claim C6: after the transform the resume clone's address is stored
unconditionally into the frame's resume-address field (field 0), and
the destroy-address field (field 1) receives the destroy clone's
address when no `coro.alloc` marker exists and otherwise a select over
the allocation flag between the destroy clone (allocation happened)
and the cleanup clone (allocation elided). -/
theorem updateCoroFrame_stores (shape : Shape)
    (h : simplifySuspendPoints shape.coroBeginId shape.coroSuspends ≠ []) :
    (splitCoroutine shape).frameStores = some (updateCoroFrame shape.hasCoroAlloc)
    ∧ (updateCoroFrame shape.hasCoroAlloc).resumeFieldIndex = 0
    ∧ (updateCoroFrame shape.hasCoroAlloc).resumeStored = CloneRef.resume
    ∧ (updateCoroFrame shape.hasCoroAlloc).destroyFieldIndex = 1
    ∧ (updateCoroFrame shape.hasCoroAlloc).destroyStored =
        (if shape.hasCoroAlloc then
          StoredDestroyValue.selectOnAlloc CloneRef.destroy CloneRef.cleanup
        else StoredDestroyValue.direct CloneRef.destroy) := by
  refine ⟨?_, rfl, rfl, rfl, rfl⟩
  simp [splitCoroutine, h]

theorem updateCoroFrame_stores_witness :
    (simplifySuspendPoints shapeOne.coroBeginId shapeOne.coroSuspends ≠ [])
    ∧ ((splitCoroutine shapeOne).frameStores =
        some (updateCoroFrame shapeOne.hasCoroAlloc)
      ∧ (updateCoroFrame shapeOne.hasCoroAlloc).resumeFieldIndex = 0
      ∧ (updateCoroFrame shapeOne.hasCoroAlloc).resumeStored = CloneRef.resume
      ∧ (updateCoroFrame shapeOne.hasCoroAlloc).destroyFieldIndex = 1
      ∧ (updateCoroFrame shapeOne.hasCoroAlloc).destroyStored =
          (if shapeOne.hasCoroAlloc then
            StoredDestroyValue.selectOnAlloc CloneRef.destroy CloneRef.cleanup
          else StoredDestroyValue.direct CloneRef.destroy)) :=
  ⟨by decide, updateCoroFrame_stores shapeOne (by decide)⟩

/-- Claim C2 is violated by the code: on suspend points
`[spA, spB, spFin]` in CFG scan order (final last) with only `spA`
simplifiable for begin marker 7, the simplifier's swap-with-last
removal produces `[spFin, spB]` — the surviving entries `spB, spFin`
are no longer in insertion order and the final suspend point is no
longer the last entry when the resume entry switch is later built. -/
theorem simplifySuspendPoints_reorders :
    (simplifySuspendPoint spA 7).simplified = true
    ∧ (simplifySuspendPoint spB 7).simplified = false
    ∧ (simplifySuspendPoint spFin 7).simplified = false
    ∧ simplifySuspendPoints 7 [spA, spB, spFin] = [spFin, spB]
    ∧ spFin.isFinal = true ∧ spB.isFinal = false := by decide

/-- Claim C1 is violated by the code: on the shape with suspend points
`[spA, spB, spFin]` (final last at build, only `spA` simplifiable),
simplification leaves `[spFin, spB]`, the entry switch maps case 0 to
the final suspend point and case 1 to `spB`, and `handleFinalSuspend`
removes the last case — `spB`'s — so the final suspend point remains a
switch case in all three outlined clones and the destroy/cleanup
null-check branches to `spB`'s landing block instead of the
final-suspend landing block. -/
theorem finalSuspend_keeps_switch_case :
    spFin.isFinal = true
    ∧ spB.isFinal = false
    ∧ (splitCoroutine shapeBug).suspendPointsAfterSimplify = [spFin, spB]
    ∧ ((splitCoroutine shapeBug).clones.map
        (fun c => (c.dispatch.caseList.map Prod.snd).contains spFin.id)) =
        [true, true, true]
    ∧ ((splitCoroutine shapeBug).clones.map
        (fun c => c.dispatch.nullCheckFinalDest)) =
        [none, some spB.id, some spB.id] := by decide

end CoroSplit
